import Mathlib

/-!
Verification of the image-to-PDF exporter (src/App.tsx).

The program is a single React Native component `ImageOCRPDFExporter`. Its
logic is modelled here as pure Lean functions: the React `useState` triple
(selectedImages, extractedTexts, loading) becomes a `SessionState` record,
every asynchronous collaborator (permission dialogs, image picker, OCR
engine, PDF converter, clipboard) becomes an oracle value supplied as an
argument, and each handler (`pickImages`, `exportToPDF`, `clearResults`)
becomes a state-transition function that also returns the ordered list of
collaborator calls and alerts it performed.
-/

/-- An image descriptor as returned by the picker (fields used by the app:
`uri`, `type` (MIME), `base64`). Mirrors the asset objects consumed at
src/App.tsx lines 91, 93 and 136. -/
structure ImageAsset where
  uri : String
  type : String
  base64 : String
  deriving Repr, DecidableEq

/-- The component state held by the three `useState` hooks
(src/App.tsx lines 21-23). -/
structure SessionState where
  selectedImages : List ImageAsset
  extractedTexts : List String
  loading : Bool
  deriving Repr, DecidableEq

/-- State at app start: both lists empty, not loading (src/App.tsx lines 21-23). -/
def initialState : SessionState :=
  { selectedImages := [], extractedTexts := [], loading := false }

/-! Document composer: `generateHTMLContent` (src/App.tsx lines 105-147). -/

/-- The fixed document head emitted before the page blocks
(src/App.tsx lines 106-131), with the stylesheet that drives pagination:
`.page` gets `page-break-after: always` and `.page:last-child` overrides it
to `auto`. -/
def htmlHeader : String :=
  "\n      <!DOCTYPE html>\n      <html>\n        <head>\n          <style>\n            body \x7b margin: 0; padding: 0; \x7d\n            .page \x7b \n              page-break-after: always;\n              margin: 0;\n              padding: 0;\n              width: 100%;\n              height: 100%;\n              display: flex;\n              justify-content: center;\n              align-items: center;\n            \x7d\n            .page:last-child \x7b page-break-after: auto; \x7d\n            img \x7b\n              max-width: 100%;\n              max-height: 100%;\n              object-fit: contain;\n            \x7d\n          </style>\n        </head>\n        <body>\n    "

/-- The fixed document tail emitted after the page blocks
(src/App.tsx lines 141-144). -/
def htmlFooter : String :=
  "\n        </body>\n      </html>\n    "

/-- The page block appended for one image (src/App.tsx lines 134-138):
a `div.page` wrapping one `img` whose `src` is the inline data URI. -/
def pageBlock (image : ImageAsset) : String :=
  "\n        <div class=\"page\">\n          <img src=\"data:" ++ image.type ++
    ";base64," ++ image.base64 ++ "\" />\n        </div>\n      "

/-- Model of `generateHTMLContent` (src/App.tsx lines 105-147): starts from the head,
appends one page block per selected image via `forEach` (modelled as a left
fold, which preserves the iteration order), then appends the tail. -/
def generateHTMLContent (selectedImages : List ImageAsset) : String :=
  let htmlContent := htmlHeader
  let htmlContent := selectedImages.foldl
    (fun htmlContent image => htmlContent ++ pageBlock image) htmlContent
  htmlContent ++ htmlFooter

/-- The data URI the spec says each page must embed:
`data:<mimeType>;base64,<payload>`. -/
def dataURI (image : ImageAsset) : String :=
  "data:" ++ image.type ++ ";base64," ++ image.base64

/-- Text of a page block before the data URI. -/
def pageBlockPre : String :=
  "\n        <div class=\"page\">\n          <img src=\""

/-- Text of a page block after the data URI. -/
def pageBlockPost : String :=
  "\" />\n        </div>\n      "

/-- Concatenation of the page blocks of a list of images, in order. -/
def pagesHTML : List ImageAsset → String
  | [] => ""
  | image :: rest => pageBlock image ++ pagesHTML rest

/-! Collaborator oracles and the call trace. -/

/-- Result of an OCR `recognize` call (src/App.tsx line 62): the library may
deliver an array of line strings, a plain string, or any other shape. -/
inductive OCRResult where
  | lines (l : List String)
  | str (s : String)
  | other
  deriving Repr, DecidableEq

/-- Outcome of the permission dialogs on Android
(src/App.tsx lines 25-58): each `PermissionsAndroid.request` either resolves
to a status string (`granted`, `denied`, `never_ask_again`) or rejects. -/
structure PermOracle where
  isAndroid : Bool
  readReq : Except String String
  writeReq : Except String String

/-- Options submitted to `RNHTMLtoPDF.convert` (src/App.tsx lines 160-167). -/
structure PDFOptions where
  html : String
  fileName : String
  directory : String
  height : Nat
  width : Nat
  padding : Nat
  deriving Repr, DecidableEq

/-- One collaborator call or alert performed by a handler, recorded in
issue order. -/
inductive Call where
  | permRequest (permission : String)
  | imagePicker
  | ocrCall (uri : String)
  | pdfConvert (options : PDFOptions)
  | clipboardSet (s : String)
  | alert (title message : String)
  deriving Repr, DecidableEq

/-- Whether a recorded call is a PDF-conversion call. -/
def Call.isPdfConvert : Call → Bool
  | .pdfConvert _ => true
  | _ => false

/-- Environment for one `pickImages` run: the permission outcomes, the
`launchImageLibrary` outcome (`.ok none` = resolved without an `assets`
field, i.e. the user cancelled; `.ok (some l)` = assets delivered;
`.error` = the picker rejected), and the OCR engine as a function from
image uri to its result or rejection. -/
structure PickOracle where
  perm : PermOracle
  pickerResult : Except String (Option (List ImageAsset))
  ocr : String → Except String OCRResult

/-- Environment for one `exportToPDF` run: the platform (for the output
directory), the `Date.now()` timestamp used in the file name, the PDF
converter (`.ok none` = resolved without a `filePath`), and the clipboard
write outcome. -/
structure ExportOracle where
  isIOS : Bool
  now : Nat
  convert : PDFOptions → Except String (Option String)
  clipboard : Except String Unit

/-! Permission gate: `requestStoragePermission` (src/App.tsx lines 25-58). -/

/-- Model of `requestStoragePermission` (src/App.tsx lines 25-58): on Android requests READ then WRITE
external-storage permission and returns whether both resolved to
`granted`; any rejection of either request is caught and yields `false`
(and skips the second request when the first rejects, as `await` does);
on other platforms returns `true` without any request. Also returns the
permission requests issued. -/
def requestStoragePermission (o : PermOracle) : Bool × List Call :=
  if o.isAndroid then
    match o.readReq with
    | .error _ => (false, [.permRequest "READ_EXTERNAL_STORAGE"])
    | .ok readGranted =>
      match o.writeReq with
      | .error _ =>
        (false, [.permRequest "READ_EXTERNAL_STORAGE", .permRequest "WRITE_EXTERNAL_STORAGE"])
      | .ok writeGranted =>
        (readGranted == "granted" && writeGranted == "granted",
         [.permRequest "READ_EXTERNAL_STORAGE", .permRequest "WRITE_EXTERNAL_STORAGE"])
  else
    (true, [])

/-! Single-image extraction: `processImage` (src/App.tsx lines 60-72). -/

/-- Model of `processImage` (src/App.tsx lines 60-72): calls the OCR engine on the image path and normalizes
the result — an array is joined with newlines (`results.join` with
separator `\n`), a string is returned verbatim, anything else becomes the
empty string. If the OCR call rejects, the error is caught and re-thrown
as the fixed extraction error. -/
def processImage (ocr : String → Except String OCRResult) (imagePath : String) :
    Except String String :=
  match ocr imagePath with
  | .ok results =>
    .ok (match results with
      | .lines arr => String.intercalate "\n" arr
      | .str s => s
      | .other => "")
  | .error _ => .error "Không thể xử lý ảnh"

/-- Semantics of `Promise.all` over an ordered list of settled outcomes, modelled
deterministically: resolves with the list of values in input order, or
rejects with the error of the first (lowest-index) rejected element. -/
def promiseAll : List (Except String α) → Except String (List α)
  | [] => .ok []
  | x :: xs =>
    match x with
    | .error e => .error e
    | .ok a =>
      match promiseAll xs with
      | .error e => .error e
      | .ok rest => .ok (a :: rest)

/-- The extraction batch issued by `pickImages` (src/App.tsx lines 92-94):
`Promise.all(result.assets.map(asset => processImage(asset.uri)))`. -/
def extractAll (ocr : String → Except String OCRResult) (assets : List ImageAsset) :
    Except String (List String) :=
  promiseAll (assets.map fun asset => processImage ocr asset.uri)

/-! Handlers: `pickImages`, `exportToPDF`, `clearResults`. -/

/-- Model of `pickImages` (src/App.tsx lines 74-103) as a state transition. Paths:
permission denied → alert, return (the `finally` still clears `loading`);
picker rejects or resolves without assets → state untouched apart from
`loading`; assets delivered → `selectedImages` is set first, then the
extraction batch runs: on success `extractedTexts` is replaced, on failure
the catch alerts and `extractedTexts` keeps its previous value. The
`finally` clears `loading` on every path. -/
def pickImages (o : PickOracle) (s : SessionState) : SessionState × List Call :=
  let hasPermission := (requestStoragePermission o.perm).1
  let permCalls := (requestStoragePermission o.perm).2
  if !hasPermission then
    ({ s with loading := false },
     permCalls ++ [.alert "Thông báo" "Bạn cần cấp quyền để sử dụng tính năng này"])
  else
    let s1 := { s with loading := true }
    match o.pickerResult with
    | .error _ =>
      ({ s1 with loading := false },
       permCalls ++ [.imagePicker, .alert "Lỗi" "Có lỗi xảy ra khi xử lý ảnh"])
    | .ok none =>
      ({ s1 with loading := false }, permCalls ++ [.imagePicker])
    | .ok (some assets) =>
      let s2 := { s1 with selectedImages := assets }
      let ocrCalls := assets.map fun asset => Call.ocrCall asset.uri
      match extractAll o.ocr assets with
      | .error _ =>
        ({ s2 with loading := false },
         permCalls ++ [.imagePicker] ++ ocrCalls ++
           [.alert "Lỗi" "Có lỗi xảy ra khi xử lý ảnh"])
      | .ok texts =>
        ({ s2 with extractedTexts := texts, loading := false },
         permCalls ++ [.imagePicker] ++ ocrCalls)

/-- Model of `exportToPDF` (src/App.tsx lines 149-186) as a state transition. Paths:
empty selection → alert, early return (the `finally` still clears
`loading`); otherwise compose the HTML, call the converter with the fixed
A4 geometry; on a resolved `filePath` alert success and copy the path to
the clipboard (a clipboard rejection is caught by the same catch); on a
converter rejection alert failure. `selectedImages` and `extractedTexts`
are never written; `loading` is cleared by the `finally` on every path. -/
def exportToPDF (o : ExportOracle) (s : SessionState) : SessionState × List Call :=
  if s.selectedImages.length == 0 then
    ({ s with loading := false },
     [.alert "Thông báo" "Vui lòng chọn ít nhất một ảnh"])
  else
    let s1 := { s with loading := true }
    let htmlContent := generateHTMLContent s1.selectedImages
    let options : PDFOptions :=
      { html := htmlContent
        fileName := "images_" ++ toString o.now
        directory := if o.isIOS then "Documents" else "Download"
        height := 842
        width := 595
        padding := 0 }
    match o.convert options with
    | .error _ =>
      ({ s1 with loading := false },
       [.pdfConvert options, .alert "Lỗi" "Không thể tạo file PDF"])
    | .ok none =>
      ({ s1 with loading := false }, [.pdfConvert options])
    | .ok (some filePath) =>
      match o.clipboard with
      | .error _ =>
        ({ s1 with loading := false },
         [.pdfConvert options,
          .alert "Thành công" ("File PDF đã được lưu tại:\n" ++ filePath),
          .clipboardSet filePath, .alert "Lỗi" "Không thể tạo file PDF"])
      | .ok _ =>
        ({ s1 with loading := false },
         [.pdfConvert options,
          .alert "Thành công" ("File PDF đã được lưu tại:\n" ++ filePath),
          .clipboardSet filePath])

/-- Model of `clearResults` (src/App.tsx lines 188-191): resets both lists, leaves
`loading` alone. -/
def clearResults (s : SessionState) : SessionState :=
  { s with selectedImages := [], extractedTexts := [] }

/-! UI triggers (src/App.tsx lines 193-239).

The pick button is disabled while `loading`; the export button is disabled
while `loading` or when no images are selected; the clear button is only
rendered when `extractedTexts` is non-empty. A disabled or absent control
yields no state change and no collaborator call. -/

/-- Pressing the pick button: no-op while `loading` (src/App.tsx line 200). -/
def triggerPick (o : PickOracle) (s : SessionState) : SessionState × List Call :=
  if s.loading then (s, []) else pickImages o s

/-- Pressing the export button: no-op while `loading` or with an empty
selection (src/App.tsx line 212). -/
def triggerExport (o : ExportOracle) (s : SessionState) : SessionState × List Call :=
  if s.loading || s.selectedImages.length == 0 then (s, []) else exportToPDF o s

/-- Pressing the clear button, which only exists when some texts are shown
(src/App.tsx line 218). -/
def triggerClear (s : SessionState) : SessionState × List Call :=
  if s.extractedTexts.length > 0 then (clearResults s, []) else (s, [])

/-- A user action together with the collaborator environment it runs in. -/
inductive UserAction where
  | pick (o : PickOracle)
  | exportPdf (o : ExportOracle)
  | clear

/-- One UI step. -/
def step (a : UserAction) (s : SessionState) : SessionState :=
  match a with
  | .pick o => (triggerPick o s).1
  | .exportPdf o => (triggerExport o s).1
  | .clear => (triggerClear s).1

/-- The state after a sequence of user actions from app start. -/
def runApp (acts : List UserAction) : SessionState :=
  acts.foldl (fun s a => step a s) initialState

/-! Concrete fixtures used by witnesses and the counterexample. -/

/-- A concrete JPEG asset. -/
def imgA : ImageAsset := { uri := "file:///a.jpg", type := "image/jpeg", base64 := "QUFB" }

/-- A second concrete JPEG asset. -/
def imgB : ImageAsset := { uri := "file:///b.jpg", type := "image/jpeg", base64 := "QkJC" }

/-- A third concrete JPEG asset. -/
def imgC : ImageAsset := { uri := "file:///c.jpg", type := "image/jpeg", base64 := "Q0ND" }

/-- A permission environment that grants everything (non-Android platform). -/
def permAllGranted : PermOracle :=
  { isAndroid := false, readReq := Except.ok "granted", writeReq := Except.ok "granted" }

/-- A pick environment whose picker delivers one asset and whose OCR engine
succeeds with a plain string. -/
def oPickSuccess : PickOracle :=
  { perm := permAllGranted
    pickerResult := Except.ok (some [imgA])
    ocr := fun _ => Except.ok (OCRResult.str "hello") }

/-- A pick environment whose picker delivers two assets and whose OCR
engine rejects every call: the extraction batch fails after the images
have been stored. -/
def oPickFailing : PickOracle :=
  { perm := permAllGranted
    pickerResult := Except.ok (some [imgB, imgC])
    ocr := fun _ => Except.error "engine crash" }

/-- An export environment whose converter succeeds. -/
def oExportOk : ExportOracle :=
  { isIOS := false
    now := 1700000000000
    convert := fun _ => Except.ok (some "/storage/Download/images.pdf")
    clipboard := Except.ok () }

/-- A state captured mid-operation: one image selected, its text extracted,
and the busy flag set. -/
def sBusy : SessionState :=
  { selectedImages := [imgA], extractedTexts := ["hello"], loading := true }

/-! Pagination: the stylesheet in `htmlHeader` (src/App.tsx lines 112-122)
forces `page-break-after: always` on every `.page` block and overrides it
to `auto` on `.page:last-child`. The next two definitions state the
resulting per-block break directive and the number of forced breaks. -/

/-- Effective `page-break-after` value of the i-th of n page blocks under
the stylesheet emitted in `htmlHeader`: `auto` for the last child, `always`
for every other block. -/
def effectivePageBreakAfter (n i : Nat) : String :=
  if i + 1 = n then "auto" else "always"

/-- Number of forced page breaks among n page blocks. -/
def internalBreaks (n : Nat) : Nat :=
  ((List.range n).filter fun i => effectivePageBreakAfter n i == "always").length

/-! Definitions for the reachable-state alignment analysis (claim C1). -/


/-- A pick environment in which the permission is granted, the picker
delivers assets, and the extraction batch then rejects: the one situation
in which `pickImages` stores new images while keeping the previous
texts. -/
def pickBatchFails (o : PickOracle) : Prop :=
  (requestStoragePermission o.perm).1 = true ∧
  ∃ assets, o.pickerResult = Except.ok (some assets) ∧
    ∃ e, extractAll o.ocr assets = Except.error e

/-- Index alignment of a state: the texts are empty, or they are the
successful extraction of exactly the selected images under some OCR
behaviour (which forces equal length and index correspondence). -/
def alignedState (s : SessionState) : Prop :=
  s.extractedTexts = [] ∨
  ∃ ocr, extractAll ocr s.selectedImages = Except.ok s.extractedTexts

/-! Structure of the composed document. -/

theorem foldl_pageBlock (l : List ImageAsset) (init : String) :
    l.foldl (fun acc image => acc ++ pageBlock image) init = init ++ pagesHTML l := by
  induction l generalizing init with
  | nil => simp [pagesHTML]
  | cons x xs ih => simp [pagesHTML, List.foldl_cons, ih, String.append_assoc]

theorem generateHTMLContent_eq (l : List ImageAsset) :
    generateHTMLContent l = htmlHeader ++ pagesHTML l ++ htmlFooter := by
  simp [generateHTMLContent, foldl_pageBlock, String.append_assoc]

theorem pageBlock_decomposes (image : ImageAsset) :
    pageBlock image = pageBlockPre ++ dataURI image ++ pageBlockPost := by
  have h : ("\n        <div class=\"page\">\n          <img src=\"" : String) ++ "data:" =
      "\n        <div class=\"page\">\n          <img src=\"data:" := by rfl
  simp only [pageBlock, dataURI, pageBlockPre, pageBlockPost, String.append_assoc]
  conv_rhs => rw [← String.append_assoc, h]

/-! Helper lemmas about `promiseAll`. -/

theorem promiseAll_ok_length {α : Type} (l : List (Except String α)) (r : List α)
    (h : promiseAll l = Except.ok r) : r.length = l.length := by
  induction l generalizing r with
  | nil =>
    simp [promiseAll] at h
    simp [← h]
  | cons x xs ih =>
    cases x with
    | error e => simp [promiseAll] at h
    | ok a =>
      simp only [promiseAll] at h
      cases hx : promiseAll xs with
      | error e => rw [hx] at h; simp at h
      | ok rest =>
        rw [hx] at h
        simp at h
        rw [← h]
        simp [ih rest hx]

theorem promiseAll_ok_get {α : Type} (l : List (Except String α)) (r : List α)
    (h : promiseAll l = Except.ok r) (i : Nat) (hi : i < l.length) (hr : i < r.length) :
    l.get ⟨i, hi⟩ = Except.ok (r.get ⟨i, hr⟩) := by
  induction l generalizing r i with
  | nil => simp at hi
  | cons x xs ih =>
    cases x with
    | error e => simp [promiseAll] at h
    | ok a =>
      simp only [promiseAll] at h
      cases hx : promiseAll xs with
      | error e => rw [hx] at h; simp at h
      | ok rest =>
        rw [hx] at h
        simp at h
        subst h
        cases i with
        | zero => simp
        | succ j =>
          simp only [List.get_cons_succ]
          exact ih rest hx j (by simpa using hi) (by simpa using hr)

theorem promiseAll_error_of_mem {α : Type} (l : List (Except String α)) (m : String)
    (hall : ∀ x ∈ l, ∀ e, x = Except.error e → e = m)
    (hex : ∃ x ∈ l, ∃ e, x = Except.error e) :
    promiseAll l = Except.error m := by
  induction l with
  | nil => simp at hex
  | cons x xs ih =>
    cases x with
    | error e =>
      have hm := hall (Except.error e) (List.mem_cons_self _ _) e rfl
      simp [promiseAll, hm]
    | ok a =>
      obtain ⟨y, hy, e, he⟩ := hex
      rcases List.mem_cons.1 hy with h1 | h2
      · rw [h1] at he; simp at he
      · have hrec := ih (fun z hz => hall z (List.mem_cons_of_mem _ hz)) ⟨y, h2, e, he⟩
        simp [promiseAll, hrec]

theorem processImage_error_msg (ocr : String → Except String OCRResult) (p e : String)
    (h : processImage ocr p = Except.error e) : e = "Không thể xử lý ảnh" := by
  unfold processImage at h
  cases hc : ocr p with
  | ok r => rw [hc] at h; simp at h
  | error e2 => rw [hc] at h; simp at h; exact h.symm

/-- C4: the extraction batch issued by `pickImages` returns one text per
image, index-aligned with the input in input order (the model of
`Promise.all` is deterministic, so completion order does not appear); if
any single extraction fails, the whole batch rejects with the extraction
error and yields no partial list. -/
theorem extractAll_spec (ocr : String → Except String OCRResult) (assets : List ImageAsset) :
    (∀ r, extractAll ocr assets = Except.ok r →
      r.length = assets.length ∧
      ∀ i (hi : i < assets.length) (hr : i < r.length),
        Except.ok (r.get ⟨i, hr⟩) = processImage ocr (assets.get ⟨i, hi⟩).uri)
    ∧ ((∃ a ∈ assets, ∃ e, processImage ocr a.uri = Except.error e) →
      extractAll ocr assets = Except.error "Không thể xử lý ảnh") := by
  constructor
  · intro r h
    have hlen := promiseAll_ok_length _ _ h
    constructor
    · simpa using hlen
    · intro i hi hr
      have hmap : i < (assets.map fun asset => processImage ocr asset.uri).length := by
        simpa using hi
      have := promiseAll_ok_get _ _ h i hmap hr
      rw [List.get_map] at this
      exact this.symm
  · rintro ⟨a, ha, e, he⟩
    apply promiseAll_error_of_mem
    · intro x hx e2 hx2
      obtain ⟨b, _, hb⟩ := List.mem_map.1 hx
      exact processImage_error_msg ocr b.uri e2 (by rw [hb]; exact hx2)
    · exact ⟨processImage ocr a.uri, List.mem_map_of_mem _ ha, e, he⟩

/-- Closed instance of C4: with an OCR engine that rejects, a one-image
batch rejects as a whole with the extraction error. -/
theorem extractAll_spec_witness :
    extractAll (fun _ => Except.error "engine crash") [imgA] =
      Except.error "Không thể xử lý ảnh" :=
  (extractAll_spec (fun _ => Except.error "engine crash") [imgA]).2
    ⟨imgA, by simp, "Không thể xử lý ảnh", rfl⟩

/-- C5: `processImage` normalizes the OCR result — an array of lines is
joined with single newlines in order, a plain string is returned verbatim,
any other shape yields the empty string (concretely the collaborator
results `["A","B"]`, `"C"` and `[]` normalize to the two-line text `A`
newline `B`, to `C` verbatim, and to the empty string), and a
rejection of the OCR call itself makes `processImage` reject with the
fixed extraction error instead of returning a text. -/
theorem processImage_normalizes (ocr : String → Except String OCRResult) (p : String) :
    (∀ l, ocr p = Except.ok (OCRResult.lines l) →
      processImage ocr p = Except.ok (String.intercalate "\n" l))
    ∧ (∀ s, ocr p = Except.ok (OCRResult.str s) → processImage ocr p = Except.ok s)
    ∧ (ocr p = Except.ok OCRResult.other → processImage ocr p = Except.ok "")
    ∧ (∀ e, ocr p = Except.error e → processImage ocr p = Except.error "Không thể xử lý ảnh")
    ∧ processImage (fun _ => Except.ok (OCRResult.lines ["A", "B"])) p = Except.ok "A\nB"
    ∧ processImage (fun _ => Except.ok (OCRResult.str "C")) p = Except.ok "C"
    ∧ processImage (fun _ => Except.ok (OCRResult.lines [])) p = Except.ok "" := by
  refine ⟨?_, ?_, ?_, ?_, rfl, rfl, rfl⟩
  · intro l h; simp [processImage, h]
  · intro s h; simp [processImage, h]
  · intro h; simp [processImage, h]
  · intro e h; simp [processImage, h]

/-- Closed instance of C5: a collaborator returning the lines
`["A", "B"]` yields the text `"A"` newline `"B"`. -/
theorem processImage_normalizes_witness :
    processImage (fun _ => Except.ok (OCRResult.lines ["A", "B"])) "img.jpg" =
      Except.ok "A\nB" :=
  (processImage_normalizes (fun _ => Except.ok (OCRResult.lines ["A", "B"])) "img.jpg").2.2.2.2.1

/-- C9: the permission gate is a total boolean function (it cannot throw:
every rejection of a request is caught); it returns `true` exactly when the
platform has no runtime permission model, or both the read and the write
request resolve to `granted`; off Android it issues no requests; on Android
it issues the read request and then, unless the read request rejected, the
write request. -/
theorem requestStoragePermission_grants (o : PermOracle) :
    ((requestStoragePermission o).1 = true ↔
      (o.isAndroid = false ∨
        (o.readReq = Except.ok "granted" ∧ o.writeReq = Except.ok "granted")))
    ∧ (o.isAndroid = false → requestStoragePermission o = (true, []))
    ∧ (o.isAndroid = true →
        (requestStoragePermission o).2 = [Call.permRequest "READ_EXTERNAL_STORAGE"] ∨
        (requestStoragePermission o).2 =
          [Call.permRequest "READ_EXTERNAL_STORAGE",
           Call.permRequest "WRITE_EXTERNAL_STORAGE"]) := by
  refine ⟨?_, ?_, ?_⟩
  · unfold requestStoragePermission
    cases hA : o.isAndroid with
    | false => simp
    | true =>
      simp only [if_true]
      cases hr : o.readReq with
      | error e => simp [hr]
      | ok rs =>
        cases hw : o.writeReq with
        | error e => simp [hw]
        | ok ws => simp [Bool.and_eq_true, beq_iff_eq]
  · intro h; unfold requestStoragePermission; simp [h]
  · intro h
    unfold requestStoragePermission
    simp only [h, if_true]
    cases o.readReq with
    | error e => simp
    | ok rs => cases o.writeReq with
      | error e => simp
      | ok ws => simp

/-- Closed instance of C9: with no runtime permission model the gate
grants without issuing any request. -/
theorem requestStoragePermission_grants_witness :
    requestStoragePermission
      { isAndroid := false, readReq := Except.ok "granted",
        writeReq := Except.ok "granted" } = (true, []) :=
  (requestStoragePermission_grants
    { isAndroid := false, readReq := Except.ok "granted",
      writeReq := Except.ok "granted" }).2.1 rfl

/-- C2: on a non-empty image list the composed document is the fixed head,
then exactly one page block per image concatenated in input order, then the
fixed tail; and every page block is the block text around exactly the data
URI `data:` ++ MIME type ++ `;base64,` ++ payload of its image. -/
theorem composeDocument_pages (l : List ImageAsset) (h : l ≠ []) :
    generateHTMLContent l = htmlHeader ++ pagesHTML l ++ htmlFooter ∧
    ∀ i (hi : i < l.length),
      pageBlock (l.get ⟨i, hi⟩) =
        pageBlockPre ++ dataURI (l.get ⟨i, hi⟩) ++ pageBlockPost ∧
      dataURI (l.get ⟨i, hi⟩) =
        "data:" ++ (l.get ⟨i, hi⟩).type ++ ";base64," ++ (l.get ⟨i, hi⟩).base64 :=
  ⟨generateHTMLContent_eq l, fun i hi => ⟨pageBlock_decomposes (l.get ⟨i, hi⟩), rfl⟩⟩

/-- Closed instance of C2 at the one-element list `[imgA]`. -/
theorem composeDocument_pages_witness :
    ([imgA] ≠ []) ∧
    generateHTMLContent [imgA] = htmlHeader ++ pagesHTML [imgA] ++ htmlFooter ∧
    pageBlock imgA = pageBlockPre ++ dataURI imgA ++ pageBlockPost :=
  ⟨by decide,
   (composeDocument_pages [imgA] (by decide)).1,
   ((composeDocument_pages [imgA] (by decide)).2 0 (by decide)).1⟩

theorem internalBreaks_eq (n : Nat) : internalBreaks n = n - 1 := by
  cases n with
  | zero => rfl
  | succ m =>
    unfold internalBreaks
    rw [List.range_succ, List.filter_append]
    have h1 : ((List.range m).filter
        fun i => effectivePageBreakAfter (m + 1) i == "always") = List.range m := by
      apply List.filter_eq_self.2
      intro a ha
      have hlt : a < m := List.mem_range.1 ha
      have hne : ¬ (a + 1 = m + 1) := by omega
      simp [effectivePageBreakAfter, hne]
    have h2 : ([m].filter fun i => effectivePageBreakAfter (m + 1) i == "always") = [] := by
      simp [effectivePageBreakAfter]
    rw [h1, h2]
    simp

/-- C3: with n images the composed document forces exactly n - 1 page
breaks — a break after block i exactly when another block follows
(`always` for i + 1 < n), and never after the last block (`auto` on the
last child); composing the empty list is defined (the composer is a total
function) and yields the bare head-plus-tail document with zero page
blocks. -/
theorem composeDocument_pageBreaks (l : List ImageAsset) :
    internalBreaks l.length = l.length - 1
    ∧ (∀ i, i + 1 < l.length → effectivePageBreakAfter l.length i = "always")
    ∧ (l ≠ [] → effectivePageBreakAfter l.length (l.length - 1) = "auto")
    ∧ generateHTMLContent [] = htmlHeader ++ htmlFooter
    ∧ pagesHTML [] = "" := by
  refine ⟨internalBreaks_eq l.length, ?_, ?_, ?_, rfl⟩
  · intro i hi
    have hne : ¬ (i + 1 = l.length) := by omega
    simp [effectivePageBreakAfter, hne]
  · intro h
    have hpos : 0 < l.length := List.length_pos.2 h
    have heq : l.length - 1 + 1 = l.length := by omega
    simp [effectivePageBreakAfter, heq]
  · rw [generateHTMLContent_eq]
    simp [pagesHTML]

/-- Closed instance of C3 at a two-element list: one internal break, a
forced break after the first block, none after the second. -/
theorem composeDocument_pageBreaks_witness :
    internalBreaks ([imgA, imgB].length) = 1
    ∧ effectivePageBreakAfter ([imgA, imgB].length) 0 = "always"
    ∧ effectivePageBreakAfter ([imgA, imgB].length) 1 = "auto" :=
  ⟨(composeDocument_pageBreaks [imgA, imgB]).1,
   (composeDocument_pageBreaks [imgA, imgB]).2.1 0 (by decide),
   (composeDocument_pageBreaks [imgA, imgB]).2.2.1 (by decide)⟩

/-! Busy flag and frame lemmas about the two handlers. -/

theorem pickImages_loading (o : PickOracle) (s : SessionState) :
    (pickImages o s).1.loading = false := by
  simp only [pickImages]
  repeat' split
  all_goals rfl

theorem exportToPDF_fields (o : ExportOracle) (s : SessionState) :
    (exportToPDF o s).1.selectedImages = s.selectedImages ∧
    (exportToPDF o s).1.extractedTexts = s.extractedTexts ∧
    (exportToPDF o s).1.loading = false := by
  simp only [exportToPDF]
  repeat' split
  all_goals exact ⟨rfl, rfl, rfl⟩

/-- C6: both handlers clear the busy flag on every exit path — whatever the
starting state and whatever the collaborators do (success, caught failure,
or cancellation), the state they leave behind has `loading = false`. -/
theorem busy_cleared_on_exit (oP : PickOracle) (oE : ExportOracle) (s : SessionState) :
    (pickImages oP s).1.loading = false ∧ (exportToPDF oE s).1.loading = false :=
  ⟨pickImages_loading oP s, (exportToPDF_fields oE s).2.2⟩

/-- C7: while the busy flag is set, pressing pick or export again is a
no-op — the state is returned unchanged and the recorded call trace is
empty, so no collaborator (permission prompt, picker, OCR, converter,
clipboard) is invoked for the second trigger. -/
theorem busy_mutual_exclusion (oP : PickOracle) (oE : ExportOracle) (s : SessionState)
    (h : s.loading = true) :
    triggerPick oP s = (s, []) ∧ triggerExport oE s = (s, []) := by
  unfold triggerPick triggerExport
  simp [h]

/-- Closed instance of C7 at a busy state. -/
theorem busy_mutual_exclusion_witness :
    sBusy.loading = true ∧ triggerPick oPickSuccess sBusy = (sBusy, []) ∧
      triggerExport oExportOk sBusy = (sBusy, []) :=
  ⟨rfl, (busy_mutual_exclusion oPickSuccess oExportOk sBusy rfl).1,
    (busy_mutual_exclusion oPickSuccess oExportOk sBusy rfl).2⟩

/-- C8: exporting with an empty selection alerts the user and returns
early — the only state change is clearing the busy flag, the trace is
exactly the notice alert, and in particular no PDF-conversion call is
issued. -/
theorem export_empty_selection (o : ExportOracle) (s : SessionState)
    (h : s.selectedImages = []) :
    (exportToPDF o s).1 = { s with loading := false } ∧
    (exportToPDF o s).2 = [Call.alert "Thông báo" "Vui lòng chọn ít nhất một ảnh"] ∧
    ((exportToPDF o s).2.all fun c => !c.isPdfConvert) = true ∧
    (exportToPDF o s).1.selectedImages = s.selectedImages ∧
    (exportToPDF o s).1.extractedTexts = s.extractedTexts ∧
    (exportToPDF o s).1.loading = false := by
  unfold exportToPDF
  simp [h, Call.isPdfConvert]

/-- Closed instance of C8 at the empty initial state. -/
theorem export_empty_selection_witness :
    initialState.selectedImages = [] ∧
    (exportToPDF oExportOk initialState).1 = { initialState with loading := false } ∧
    ((exportToPDF oExportOk initialState).2.all fun c => !c.isPdfConvert) = true :=
  ⟨rfl, (export_empty_selection oExportOk initialState rfl).1,
    (export_empty_selection oExportOk initialState rfl).2.2.1⟩

/-- C10: `exportToPDF` never writes the selected images or the extracted
texts — from every starting state and for every converter and clipboard
behaviour the two lists are exactly their pre-call values afterwards, and
the only field it writes is the busy flag, which ends false. -/
theorem export_frame (o : ExportOracle) (s : SessionState) :
    (exportToPDF o s).1.selectedImages = s.selectedImages ∧
    (exportToPDF o s).1.extractedTexts = s.extractedTexts ∧
    (exportToPDF o s).1.loading = false :=
  exportToPDF_fields o s

/-! Reachable-state alignment (claim C1). -/
theorem alignedState_length (s : SessionState) (h : alignedState s) :
    s.extractedTexts.length = 0 ∨ s.extractedTexts.length = s.selectedImages.length := by
  cases h with
  | inl h => left; simp [h]
  | inr h =>
    obtain ⟨ocr, h⟩ := h
    right
    have := promiseAll_ok_length _ _ h
    simpa using this

theorem step_preserves_aligned (a : UserAction) (s : SessionState)
    (hGood : ∀ o, a = UserAction.pick o → ¬ pickBatchFails o)
    (hs : alignedState s) : alignedState (step a s) := by
  cases a with
  | clear =>
    simp only [step, triggerClear]
    split
    · exact Or.inl rfl
    · exact hs
  | exportPdf o =>
    simp only [step, triggerExport]
    split
    · exact hs
    · have hf := exportToPDF_fields o s
      unfold alignedState
      rw [hf.1, hf.2.1]
      exact hs
  | pick o =>
    simp only [step, triggerPick]
    split
    · exact hs
    · simp only [pickImages]
      split
      · exact hs
      · rename_i hperm
        split
        · exact hs
        · exact hs
        · rename_i assets hpk
          split
          · rename_i e hba
            exfalso
            apply hGood o rfl
            refine ⟨?_, assets, hpk, e, hba⟩
            cases hb : (requestStoragePermission o.perm).1 with
            | false => rw [hb] at hperm; simp at hperm
            | true => rfl
          · rename_i texts hba
            exact Or.inr ⟨o.ocr, hba⟩

theorem foldl_preserves_aligned (acts : List UserAction) (s : SessionState)
    (h : ∀ o, UserAction.pick o ∈ acts → ¬ pickBatchFails o)
    (hs : alignedState s) :
    alignedState (acts.foldl (fun s a => step a s) s) := by
  induction acts generalizing s with
  | nil => simpa
  | cons a rest ih =>
    simp only [List.foldl_cons]
    apply ih
    · intro o ho
      exact h o (List.mem_cons_of_mem _ ho)
    · apply step_preserves_aligned a s _ hs
      intro o hao
      apply h o
      rw [← hao]
      exact List.mem_cons_self _ _

/-- C1 (amended): after app start and after every completed or failed
pick, export, or clear action, provided no pick action in the run had its
permission granted, its images delivered, and its extraction batch then
fail, the extracted texts are empty or are the index-aligned extraction
results of exactly the selected images — in particular their length is 0
or the number of selected images. (Unamended, the claim is refuted by
`pick_batch_failure_breaks_alignment`: a pick whose batch fails after the
images are stored keeps the previous texts.) -/
theorem reachable_alignment (acts : List UserAction)
    (h : ∀ o, UserAction.pick o ∈ acts → ¬ pickBatchFails o) :
    alignedState (runApp acts) ∧
    ((runApp acts).extractedTexts.length = 0 ∨
     (runApp acts).extractedTexts.length = (runApp acts).selectedImages.length) := by
  have hal : alignedState (runApp acts) :=
    foldl_preserves_aligned acts initialState h (Or.inl rfl)
  exact ⟨hal, alignedState_length _ hal⟩

/-- Counterexample to C1 as stated: start the app, run a successful
one-image pick (OCR returns `hello`), then a two-image pick whose
extraction batch rejects after the two images were stored. The state left
behind has two selected images but one extracted text: its texts length is
neither 0 nor the images length, so the claimed invariant fails in a
reachable state. -/
theorem pick_batch_failure_breaks_alignment :
    ¬ (((runApp [UserAction.pick oPickSuccess, UserAction.pick oPickFailing]).extractedTexts.length = 0) ∨
       (runApp [UserAction.pick oPickSuccess, UserAction.pick oPickFailing]).extractedTexts.length =
         (runApp [UserAction.pick oPickSuccess, UserAction.pick oPickFailing]).selectedImages.length) := by
  decide

/-- Closed instance of the amended C1: a run with one successful pick
satisfies the alignment invariant. -/
theorem reachable_alignment_witness :
    alignedState (runApp [UserAction.pick oPickSuccess]) ∧
    ((runApp [UserAction.pick oPickSuccess]).extractedTexts.length = 0 ∨
     (runApp [UserAction.pick oPickSuccess]).extractedTexts.length =
       (runApp [UserAction.pick oPickSuccess]).selectedImages.length) :=
  reachable_alignment [UserAction.pick oPickSuccess] (by
    intro o ho hbad
    simp at ho
    rw [ho] at hbad
    obtain ⟨hperm, assets, hpk, e, hba⟩ := hbad
    have hassets : assets = [imgA] := by
      have h2 : (Except.ok (some [imgA]) : Except String (Option (List ImageAsset))) =
          Except.ok (some assets) := hpk
      simpa using h2.symm
    rw [hassets] at hba
    have hok : extractAll oPickSuccess.ocr [imgA] = Except.ok ["hello"] := rfl
    rw [hok] at hba
    exact Except.noConfusion hba)
